import Mathlib

/-!
Verification development for the AkademikAI RAG service.

The embedding models, from the repository source:
  - `src/data_processing/loader.py` (document preparation),
  - `src/core/rag_pipeline.py` (the `RAGPipeline` class),
  - `src/api/endpoints.py` (the `/ask` request boundary).

External collaborators (the json decoder, the vector index, the language
model) are modelled as explicit function parameters or as pre-decoded
values, exactly at their call boundary.
-/

/-- A scalar Python value as produced by the json decoder for a record
field.  The records consumed by this repository carry scalar fields
(`title`, `h1`, `text`, `url`, `content_hash`), so object fields are
modelled one level deep. -/
inductive PyVal where
  | str (s : String)
  | num (n : Int)
  | bool (b : Bool)
  | null
deriving DecidableEq, Repr

/-- A decoded JSON line: either an object (a Python dict with scalar
values) or a bare scalar value (e.g. the line `42`, which json.loads
accepts and returns as a non-dict). -/
inductive PyJson where
  | obj (fields : List (String × PyVal))
  | val (v : PyVal)
deriving DecidableEq, Repr

/-- `d.get(k)`: lookup in a Python dict modelled as an association list
with distinct keys (as the json decoder produces). Returns `none` when
the key is absent. -/
def dictGet (m : List (String × PyVal)) (k : String) : Option PyVal :=
  (m.find? (fun p => p.1 == k)).map (fun p => p.2)

/-- Python `str()` of a scalar value, as interpolated by an f-string. -/
def PyVal.pyStr : PyVal → String
  | .str s => s
  | .num n => toString n
  | .bool true => "True"
  | .bool false => "False"
  | .null => "None"

/-- Python truthiness of a scalar value. -/
def PyVal.truthy : PyVal → Bool
  | .str s => !(s == "")
  | .num n => !(n == 0)
  | .bool b => b
  | .null => false

/-- Whether a value is a Python string. -/
def PyVal.isStr : PyVal → Bool
  | .str _ => true
  | _ => false

/-- A LangChain `Document`: the page content plus a metadata dict. -/
structure Document where
  page_content : String
  metadata : List (String × PyVal)
deriving DecidableEq, Repr

/-- One entry of the `sources` list built by `RAGPipeline._format_sources`:
a dict with a `url` and a `title` value. -/
structure Source where
  url : PyVal
  title : PyVal
deriving DecidableEq, Repr

/-- The dictionary returned by `RAGPipeline.answer`. -/
structure AnswerResult where
  answer : String
  sources : List Source
deriving DecidableEq, Repr

/-- The error raised when `.get` is called on a non-dict value (Python
`AttributeError`); the only uncaught per-line error in the loader. -/
inductive PyError where
  | attributeError
deriving DecidableEq, Repr

/-- The outcome of `json.loads` on one input line: `.error ()` models a
`json.JSONDecodeError` on a malformed line, `.ok j` the decoded value. -/
abbrev JsonLine := Except Unit PyJson

/-- The body of the per-line `try` block of `load_and_prepare_documents`
after `json.loads` succeeded: on a dict, build the enriched content and
the metadata (`data.get` with the defaults of the source); on any
non-dict value, `data.get` raises an `AttributeError`, which is not one
of the exception types the loader catches. -/
def prepare_line (j : PyJson) : Except PyError Document :=
  match j with
  | .val _ => .error .attributeError
  | .obj data =>
    let getf := fun (k : String) (dflt : String) =>
      match dictGet data k with
      | some v => v.pyStr
      | none => dflt
    .ok {
      page_content :=
        "Page Title: " ++ getf "title" "N/A" ++ "\n" ++
        "H1 Header: " ++ getf "h1" "N/A" ++ "\n\n" ++
        getf "text" "",
      metadata :=
        [("source", (dictGet data "url").getD (.str "")),
         ("title", (dictGet data "title").getD (.str "No Title")),
         ("content_hash", (dictGet data "content_hash").getD (.str ""))] }

/-- The loop of `load_and_prepare_documents` over the sliced lines: a
decode error is caught and the line skipped (with a warning); a
successfully prepared document is appended; a `PyError` escapes the
per-line handlers and aborts the whole load. -/
def prepare_lines : List JsonLine → Except PyError (List Document)
  | [] => .ok []
  | line :: rest =>
    match line with
    | .error _ => prepare_lines rest
    | .ok j =>
      match prepare_line j with
      | .error e => .error e
      | .ok d => (prepare_lines rest).map (fun ds => d :: ds)

/-- `itertools.islice(f, start, stop)` on the line iterator of the file. -/
def islice (lines : List α) (start : Nat) (stop : Option Nat) : List α :=
  match stop with
  | none => lines.drop start
  | some n => (lines.take n).drop start

/-- `load_and_prepare_documents`: `file = none` models a path that does
not exist (the `FileNotFoundError` branch, which logs an error and
returns the empty list); otherwise the file is the list of per-line
json.loads outcomes. -/
def load_and_prepare_documents (file : Option (List JsonLine))
    (start : Nat) (stop : Option Nat) : Except PyError (List Document) :=
  match file with
  | none => .ok []
  | some lines => prepare_lines (islice lines start stop)

/-- The single-quote character, used by the Python repr of strings. -/
def pyQuote : String := String.singleton (Char.ofNat 39)

/-- Python `repr` of a string, as used inside `str()` of a dict.  Exact
for strings that contain no quote, backslash or control characters. -/
def pyRepr (s : String) : String := pyQuote ++ s ++ pyQuote

/-- Python `str()` of the chain input dict, which is built as
`\x7b"question": question, "language": language\x7d` (insertion order:
question first). -/
def pyStrOfAskInput (question language : String) : String :=
  "\x7b" ++ pyRepr "question" ++ ": " ++ pyRepr question ++ ", " ++
    pyRepr "language" ++ ": " ++ pyRepr language ++ "\x7d"

/-- `RAG_PROMPT_TEMPLATE` with its three slots filled, i.e. the result
of formatting the template (an f-string) with concrete values for the
`language`, `context` and `question` variables. -/
def RAG_PROMPT_TEMPLATE_filled (language context question : String) : String :=
  "\nAs a helpful informational assistant, your task is to answer the user" ++ pyQuote ++
  "s question\nbased exclusively on the provided context. Be concise and factual.\n\n" ++
  "If the context does not contain the answer, you must reply with:\n" ++
  "\"Unfortunately, I could not find information on this topic in my knowledge base.\"\n\n" ++
  "Your final answer must be in the following language: " ++ language ++
  "\n\nContext:\n" ++ context ++ "\n\nQuestion:\n" ++ question ++ "\n"

/-- The Composer contract of the specification: compose(question,
language, context) fills the template slots with exactly those values.
This definition follows the words of the specification and is compared
against the chain the code actually builds. -/
def spec_compose (question language context : String) : String :=
  RAG_PROMPT_TEMPLATE_filled language context question

/-- `RAGPipeline._format_context`: join the page contents of the
retrieved documents with the separator between them. -/
def RAGPipeline.format_context (docs : List Document) : String :=
  String.intercalate "\n\n---\n\n" (docs.map (fun doc => doc.page_content))

/-- The loop body of `RAGPipeline._format_sources`: `seen` models the
`unique_urls` set.  `doc.metadata.get("source")` may be absent (`none`,
Python `None`, falsy) and is appended only when truthy and not seen
before, paired with `doc.metadata.get("title", "No Title")`. -/
def RAGPipeline.format_sources_aux : List Document → List PyVal → List Source
  | [], _ => []
  | doc :: rest, seen =>
    match dictGet doc.metadata "source" with
    | none => RAGPipeline.format_sources_aux rest seen
    | some u =>
      if u.truthy = true ∧ u ∉ seen then
        ⟨u, (dictGet doc.metadata "title").getD (.str "No Title")⟩ ::
          RAGPipeline.format_sources_aux rest (u :: seen)
      else
        RAGPipeline.format_sources_aux rest seen

/-- `RAGPipeline._format_sources`: unique source urls, first occurrence
first, each with the title of the document that introduced it. -/
def RAGPipeline.format_sources (docs : List Document) : List Source :=
  RAGPipeline.format_sources_aux docs []

/-- The prompt string produced by `self.prompt` inside `self.chain`:
the `context` slot holds the output of the retrieval sub-chain, while
the `question` and `language` slots each hold the output of a
`RunnablePassthrough()`, which passes the whole input dict through
unchanged, so both slots are filled with the Python `str()` of that
dict. -/
def RAGPipeline.chain_prompt (question language : String) (docs : List Document) : String :=
  RAG_PROMPT_TEMPLATE_filled (pyStrOfAskInput question language)
    (RAGPipeline.format_context docs) (pyStrOfAskInput question language)

/-- The fixed answer returned when retrieval finds nothing. -/
def NO_RESULTS_ANSWER : String :=
  "Unfortunately, I could not find any relevant information " ++
    "in my knowledge base."

/-- An exception from an external service (the vector index or the
language model), identified by its message string. -/
abbrev RunErr := String

/-- A call to an external service made while answering a request. -/
inductive CallEvent where
  | retrieve (query : String)
  | generate (prompt : String)
deriving DecidableEq, Repr

/-- `RAGPipeline.answer`, instrumented with the list of external calls
it makes, in order.  `r` is `self.retriever.invoke` and `gen` is the
`self.llm` step followed by `StrOutputParser` (prompt string in, answer
text out); either may raise (`Except.error`), and `answer` itself
catches nothing.  Step 1 retrieves; an empty result returns the fixed
answer with no sources; otherwise `self.chain.invoke` runs, whose
retrieval sub-chain invokes the retriever a second time, formats the
context, fills the prompt and calls the generator; finally the sources
are formatted from the documents of step 1. -/
def RAGPipeline.answerWithTrace (r : String → Except RunErr (List Document))
    (gen : String → Except RunErr String) (question language : String) :
    Except RunErr AnswerResult × List CallEvent :=
  match r question with
  | .error e => (.error e, [.retrieve question])
  | .ok relevant_docs =>
    if relevant_docs.isEmpty then
      (.ok ⟨NO_RESULTS_ANSWER, []⟩, [.retrieve question])
    else
      match r question with
      | .error e => (.error e, [.retrieve question, .retrieve question])
      | .ok docs2 =>
        match gen (RAGPipeline.chain_prompt question language docs2) with
        | .error e =>
          (.error e, [.retrieve question, .retrieve question,
            .generate (RAGPipeline.chain_prompt question language docs2)])
        | .ok generated_answer =>
          (.ok ⟨generated_answer, RAGPipeline.format_sources relevant_docs⟩,
            [.retrieve question, .retrieve question,
              .generate (RAGPipeline.chain_prompt question language docs2)])

/-- The value `RAGPipeline.answer` returns (or the exception it lets
propagate). -/
def RAGPipeline.answer (r : String → Except RunErr (List Document))
    (gen : String → Except RunErr String) (question language : String) :
    Except RunErr AnswerResult :=
  (RAGPipeline.answerWithTrace r gen question language).1

/-- The external calls made by one invocation of `RAGPipeline.answer`. -/
def RAGPipeline.callTrace (r : String → Except RunErr (List Document))
    (gen : String → Except RunErr String) (question language : String) :
    List CallEvent :=
  (RAGPipeline.answerWithTrace r gen question language).2

/-- The outcome of one `/ask` request at the HTTP boundary. -/
inductive HttpResult where
  | ok (body : AnswerResult)
  | httpError (status : Nat) (detail : String)
deriving DecidableEq, Repr

/-- The `/ask` handler of `src/api/endpoints.py`: call the pipeline and
return its result; any exception is caught and converted into an
`HTTPException` with status 500 whose detail carries the message. -/
def ask (r : String → Except RunErr (List Document))
    (gen : String → Except RunErr String) (question language : String) :
    HttpResult :=
  match RAGPipeline.answer r gen question language with
  | .ok result => .ok result
  | .error e =>
    .httpError 500 ("An internal error occurred while processing the request: " ++ e)

/-- The url values of the retrieved passages, read off the metadata
according to the data model of the specification (source urls are
strings). -/
def passageUrls (docs : List Document) : List String :=
  docs.filterMap (fun d =>
    match dictGet d.metadata "source" with
    | some (.str s) => some s
    | _ => none)

/-- First-occurrence deduplication, following the words of the
specification: keep each url the first time it appears, in order. -/
def dedupFirstAux : List String → List String → List String
  | [], _ => []
  | u :: rest, seen =>
    if u ∈ seen then dedupFirstAux rest seen
    else u :: dedupFirstAux rest (u :: seen)

/-- The urls of `sources` as the specification describes them: the
non-empty urls among the retrieved passages, in first-occurrence
order. -/
def dedupFirst (l : List String) : List String := dedupFirstAux l []

/-- Unfolding `format_sources_aux` over a document without a `source`
key: the document is skipped. -/
theorem format_sources_aux_cons_none (d : Document) (rest : List Document)
    (seen : List PyVal) (hg : dictGet d.metadata "source" = none) :
    RAGPipeline.format_sources_aux (d :: rest) seen =
      RAGPipeline.format_sources_aux rest seen := by
  simp [RAGPipeline.format_sources_aux, hg]

/-- Unfolding `format_sources_aux` over a document whose source url is
truthy and unseen: the document contributes one entry. -/
theorem format_sources_aux_cons_pos (d : Document) (rest : List Document)
    (seen : List PyVal) (u : PyVal) (hg : dictGet d.metadata "source" = some u)
    (hcond : u.truthy = true ∧ u ∉ seen) :
    RAGPipeline.format_sources_aux (d :: rest) seen =
      ⟨u, (dictGet d.metadata "title").getD (.str "No Title")⟩ ::
        RAGPipeline.format_sources_aux rest (u :: seen) := by
  simp only [RAGPipeline.format_sources_aux, hg]
  rw [if_pos hcond]

/-- Unfolding `format_sources_aux` over a document whose source url is
falsy or already seen: the document is skipped. -/
theorem format_sources_aux_cons_neg (d : Document) (rest : List Document)
    (seen : List PyVal) (u : PyVal) (hg : dictGet d.metadata "source" = some u)
    (hcond : ¬(u.truthy = true ∧ u ∉ seen)) :
    RAGPipeline.format_sources_aux (d :: rest) seen =
      RAGPipeline.format_sources_aux rest seen := by
  simp only [RAGPipeline.format_sources_aux, hg]
  rw [if_neg hcond]

/-- Every entry emitted by `format_sources_aux` has a truthy url that
was not in the seen set. -/
theorem mem_format_sources_aux (docs : List Document) :
    ∀ (seen : List PyVal) (s : Source),
      s ∈ RAGPipeline.format_sources_aux docs seen →
      s.url.truthy = true ∧ s.url ∉ seen := by
  induction docs with
  | nil => intro seen s hs; simp [RAGPipeline.format_sources_aux] at hs
  | cons d rest ih =>
    intro seen s hs
    cases hg : dictGet d.metadata "source" with
    | none =>
      rw [format_sources_aux_cons_none d rest seen hg] at hs
      exact ih seen s hs
    | some u =>
      by_cases hcond : u.truthy = true ∧ u ∉ seen
      · rw [format_sources_aux_cons_pos d rest seen u hg hcond] at hs
        rcases List.mem_cons.mp hs with rfl | htail
        · exact ⟨hcond.1, hcond.2⟩
        · have h2 := ih (u :: seen) s htail
          exact ⟨h2.1, fun hm => h2.2 (List.mem_cons_of_mem u hm)⟩
      · rw [format_sources_aux_cons_neg d rest seen u hg hcond] at hs
        exact ih seen s hs

/-- The urls collected by `format_sources_aux` are pairwise distinct. -/
theorem format_sources_aux_nodup (docs : List Document) :
    ∀ (seen : List PyVal),
      ((RAGPipeline.format_sources_aux docs seen).map Source.url).Nodup := by
  induction docs with
  | nil => intro seen; simp [RAGPipeline.format_sources_aux]
  | cons d rest ih =>
    intro seen
    cases hg : dictGet d.metadata "source" with
    | none => rw [format_sources_aux_cons_none d rest seen hg]; exact ih seen
    | some u =>
      by_cases hcond : u.truthy = true ∧ u ∉ seen
      · rw [format_sources_aux_cons_pos d rest seen u hg hcond]
        simp only [List.map_cons, List.nodup_cons]
        refine ⟨?_, ih (u :: seen)⟩
        intro hmem
        rcases List.mem_map.mp hmem with ⟨s, hsmem, hsu⟩
        exact (mem_format_sources_aux rest (u :: seen) s hsmem).2
          (hsu ▸ List.mem_cons_self u seen)
      · rw [format_sources_aux_cons_neg d rest seen u hg hcond]; exact ih seen

/-- The title recorded with each collected url is the title default of
the first document in the list that carries exactly that source url. -/
theorem format_sources_aux_titles (docs : List Document) :
    ∀ (seen : List PyVal) (s : Source),
      s ∈ RAGPipeline.format_sources_aux docs seen →
      ∃ d, docs.find? (fun d => decide (dictGet d.metadata "source" = some s.url)) = some d ∧
        s.title = (dictGet d.metadata "title").getD (PyVal.str "No Title") := by
  induction docs with
  | nil => intro seen s hs; simp [RAGPipeline.format_sources_aux] at hs
  | cons d rest ih =>
    intro seen s hs
    cases hg : dictGet d.metadata "source" with
    | none =>
      rw [format_sources_aux_cons_none d rest seen hg] at hs
      rcases ih seen s hs with ⟨d', hfind, htitle⟩
      refine ⟨d', ?_, htitle⟩
      rw [List.find?_cons_of_neg _ (by simp [hg]), hfind]
    | some u =>
      by_cases hcond : u.truthy = true ∧ u ∉ seen
      · rw [format_sources_aux_cons_pos d rest seen u hg hcond] at hs
        rcases List.mem_cons.mp hs with rfl | htail
        · exact ⟨d, List.find?_cons_of_pos _ (by simp [hg]), rfl⟩
        · have hsu := mem_format_sources_aux rest (u :: seen) s htail
          rcases ih (u :: seen) s htail with ⟨d', hfind, htitle⟩
          refine ⟨d', ?_, htitle⟩
          have hne : u ≠ s.url :=
            fun h => hsu.2 (h ▸ List.mem_cons_self u seen)
          rw [List.find?_cons_of_neg _ (by simp [hg, hne]), hfind]
      · rw [format_sources_aux_cons_neg d rest seen u hg hcond] at hs
        have hsu := mem_format_sources_aux rest seen s hs
        rcases ih seen s hs with ⟨d', hfind, htitle⟩
        refine ⟨d', ?_, htitle⟩
        have hne : u ≠ s.url := by
          rcases not_and_or.mp hcond with h | h
          · exact fun he => h (he ▸ hsu.1)
          · exact fun he => hsu.2 (he ▸ not_not.mp h)
        rw [List.find?_cons_of_neg _ (by simp [hg, hne]), hfind]

/-- The urls collected by `format_sources_aux`, when the source urls of
the documents are strings (the data model of the specification), are
exactly the non-empty passage urls in first-occurrence order. -/
theorem format_sources_aux_urls (docs : List Document) :
    ∀ (seenS : List String),
      (∀ d ∈ docs, ((dictGet d.metadata "source").all PyVal.isStr) = true) →
      (RAGPipeline.format_sources_aux docs (seenS.map PyVal.str)).map Source.url =
        (dedupFirstAux ((passageUrls docs).filter (fun s => !(s == ""))) seenS).map
          PyVal.str := by
  induction docs with
  | nil =>
    intro seenS hstr
    simp [RAGPipeline.format_sources_aux, passageUrls, dedupFirstAux]
  | cons d rest ih =>
    intro seenS hstr
    have hd := hstr d (List.mem_cons_self d rest)
    have hrest : ∀ d' ∈ rest, ((dictGet d'.metadata "source").all PyVal.isStr) = true :=
      fun d' hd' => hstr d' (List.mem_cons_of_mem d hd')
    cases hg : dictGet d.metadata "source" with
    | none =>
      rw [format_sources_aux_cons_none d rest (seenS.map PyVal.str) hg]
      have hpass : passageUrls (d :: rest) = passageUrls rest := by
        simp [passageUrls, List.filterMap_cons, hg]
      rw [hpass]
      exact ih seenS hrest
    | some v =>
      have hv : v.isStr = true := by rw [hg] at hd; simpa [Option.all] using hd
      cases v with
      | num n => simp [PyVal.isStr] at hv
      | bool b => simp [PyVal.isStr] at hv
      | null => simp [PyVal.isStr] at hv
      | str s =>
        have hpass : passageUrls (d :: rest) = s :: passageUrls rest := by
          simp [passageUrls, List.filterMap_cons, hg]
        rw [hpass]
        by_cases hemp : s = ""
        · subst hemp
          rw [format_sources_aux_cons_neg d rest _ _ hg
            (by simp [PyVal.truthy])]
          simp only [List.filter_cons]
          norm_num
          exact ih seenS hrest
        · by_cases hseen : s ∈ seenS
          · rw [format_sources_aux_cons_neg d rest _ _ hg
              (by
                intro hcond
                exact hcond.2 (List.mem_map.mpr ⟨s, hseen, rfl⟩))]
            simp only [List.filter_cons]
            have : (!(s == "")) = true := by simp [hemp]
            rw [if_pos this]
            simp only [dedupFirstAux, if_pos hseen]
            exact ih seenS hrest
          · have hnotseen : PyVal.str s ∉ seenS.map PyVal.str := by
              intro hmem
              rcases List.mem_map.mp hmem with ⟨s', hs', he⟩
              cases he
              exact hseen hs'
            rw [format_sources_aux_cons_pos d rest _ _ hg
              ⟨by simp [PyVal.truthy, hemp], hnotseen⟩]
            simp only [List.filter_cons]
            have : (!(s == "")) = true := by simp [hemp]
            rw [if_pos this]
            simp only [dedupFirstAux, if_neg hseen]
            simp only [List.map_cons]
            have hcons : PyVal.str s :: seenS.map PyVal.str =
                (s :: seenS).map PyVal.str := rfl
            rw [hcons]
            exact congrArg (List.cons (PyVal.str s)) (ih (s :: seenS) hrest)

/-- For a successfully retrieved document list, the sources of a result
returned by `RAGPipeline.answer` are `format_sources` of that list. -/
theorem answer_ok_sources (r : String → Except RunErr (List Document))
    (gen : String → Except RunErr String) (question language : String)
    (docs : List Document) (a : AnswerResult)
    (hr : r question = Except.ok docs)
    (ha : RAGPipeline.answer r gen question language = Except.ok a) :
    a.sources = RAGPipeline.format_sources docs := by
  unfold RAGPipeline.answer RAGPipeline.answerWithTrace at ha
  rw [hr] at ha
  cases docs with
  | nil =>
    simp only [List.isEmpty_nil, if_true] at ha
    cases ha
    rfl
  | cons d ds =>
    simp only [List.isEmpty_cons] at ha
    cases hgen : gen (RAGPipeline.chain_prompt question language (d :: ds)) with
    | error e => simp [hgen] at ha
    | ok t =>
      rw [hgen] at ha
      cases ha
      rfl

/-- Claim C1: for every request whose retrieval result is non-empty,
the `sources` of the returned result contain no two entries with the
same url, their order is the first-occurrence order of the non-empty
urls among the retrieved passages (passages with an empty or missing
url contribute nothing), and the title recorded for a url is the title
of the first retrieved passage bearing that url. -/
theorem C1_sources_invariant (r : String → Except RunErr (List Document))
    (gen : String → Except RunErr String) (question language : String)
    (docs : List Document) (a : AnswerResult)
    (hr : r question = Except.ok docs) (hne : docs ≠ [])
    (hstr : ∀ d ∈ docs, ((dictGet d.metadata "source").all PyVal.isStr) = true)
    (ha : RAGPipeline.answer r gen question language = Except.ok a) :
    (a.sources.map Source.url).Nodup ∧
    a.sources.map Source.url =
      (dedupFirst ((passageUrls docs).filter (fun s => !(s == "")))).map PyVal.str ∧
    ∀ s ∈ a.sources,
      ∃ d, docs.find? (fun d => decide (dictGet d.metadata "source" = some s.url)) = some d ∧
        s.title = (dictGet d.metadata "title").getD (PyVal.str "No Title") := by
  have hsrc := answer_ok_sources r gen question language docs a hr ha
  refine ⟨?_, ?_, ?_⟩
  · rw [hsrc]
    exact format_sources_aux_nodup docs []
  · rw [hsrc]
    have h := format_sources_aux_urls docs [] hstr
    simpa [dedupFirst, RAGPipeline.format_sources] using h
  · intro s hs
    rw [hsrc] at hs
    exact format_sources_aux_titles docs [] s hs

/-- Witness for C1 at a concrete request: a duplicate url keeps its
first title, an empty url and a missing url are dropped, and order is
first occurrence. -/
theorem C1_sources_invariant_witness :
    ((AnswerResult.mk "ans"
        [⟨PyVal.str "https://u/a", PyVal.str "A"⟩,
         ⟨PyVal.str "https://u/b", PyVal.str "No Title"⟩]).sources.map Source.url).Nodup ∧
    (AnswerResult.mk "ans"
        [⟨PyVal.str "https://u/a", PyVal.str "A"⟩,
         ⟨PyVal.str "https://u/b", PyVal.str "No Title"⟩]).sources.map Source.url =
      (dedupFirst ((passageUrls
        [⟨"a", [("source", PyVal.str "https://u/a"), ("title", PyVal.str "A")]⟩,
         ⟨"b", [("source", PyVal.str "https://u/a"), ("title", PyVal.str "A-dup")]⟩,
         ⟨"c", [("source", PyVal.str ""), ("title", PyVal.str "E")]⟩,
         ⟨"d", [("title", PyVal.str "NoUrl")]⟩,
         ⟨"e", [("source", PyVal.str "https://u/b")]⟩]).filter (fun s => !(s == "")))).map
        PyVal.str ∧
    ∀ s ∈ (AnswerResult.mk "ans"
        [⟨PyVal.str "https://u/a", PyVal.str "A"⟩,
         ⟨PyVal.str "https://u/b", PyVal.str "No Title"⟩]).sources,
      ∃ d, ([⟨"a", [("source", PyVal.str "https://u/a"), ("title", PyVal.str "A")]⟩,
         ⟨"b", [("source", PyVal.str "https://u/a"), ("title", PyVal.str "A-dup")]⟩,
         ⟨"c", [("source", PyVal.str ""), ("title", PyVal.str "E")]⟩,
         ⟨"d", [("title", PyVal.str "NoUrl")]⟩,
         ⟨"e", [("source", PyVal.str "https://u/b")]⟩] : List Document).find?
          (fun d => decide (dictGet d.metadata "source" = some s.url)) = some d ∧
        s.title = (dictGet d.metadata "title").getD (PyVal.str "No Title") :=
  C1_sources_invariant
    (fun _ => Except.ok
        [⟨"a", [("source", PyVal.str "https://u/a"), ("title", PyVal.str "A")]⟩,
         ⟨"b", [("source", PyVal.str "https://u/a"), ("title", PyVal.str "A-dup")]⟩,
         ⟨"c", [("source", PyVal.str ""), ("title", PyVal.str "E")]⟩,
         ⟨"d", [("title", PyVal.str "NoUrl")]⟩,
         ⟨"e", [("source", PyVal.str "https://u/b")]⟩])
    (fun _ => Except.ok "ans") "Q" "Polish"
    [⟨"a", [("source", PyVal.str "https://u/a"), ("title", PyVal.str "A")]⟩,
     ⟨"b", [("source", PyVal.str "https://u/a"), ("title", PyVal.str "A-dup")]⟩,
     ⟨"c", [("source", PyVal.str ""), ("title", PyVal.str "E")]⟩,
     ⟨"d", [("title", PyVal.str "NoUrl")]⟩,
     ⟨"e", [("source", PyVal.str "https://u/b")]⟩]
    (AnswerResult.mk "ans"
        [⟨PyVal.str "https://u/a", PyVal.str "A"⟩,
         ⟨PyVal.str "https://u/b", PyVal.str "No Title"⟩])
    rfl (by decide) (by decide) rfl

/-- Unfolding `answerWithTrace` when retrieval yields a non-empty list
and the generator raises. -/
theorem answerWithTrace_gen_error (r : String → Except RunErr (List Document))
    (gen : String → Except RunErr String) (question language : String)
    (d : Document) (ds : List Document) (e : RunErr)
    (hr : r question = Except.ok (d :: ds))
    (hgen : gen (RAGPipeline.chain_prompt question language (d :: ds)) = Except.error e) :
    RAGPipeline.answerWithTrace r gen question language =
      (Except.error e,
       [CallEvent.retrieve question, CallEvent.retrieve question,
        CallEvent.generate (RAGPipeline.chain_prompt question language (d :: ds))]) := by
  unfold RAGPipeline.answerWithTrace
  rw [hr]
  simp [hgen]

/-- Unfolding `answerWithTrace` when retrieval yields a non-empty list
and the generator returns text. -/
theorem answerWithTrace_gen_ok (r : String → Except RunErr (List Document))
    (gen : String → Except RunErr String) (question language : String)
    (d : Document) (ds : List Document) (t : String)
    (hr : r question = Except.ok (d :: ds))
    (hgen : gen (RAGPipeline.chain_prompt question language (d :: ds)) = Except.ok t) :
    RAGPipeline.answerWithTrace r gen question language =
      (Except.ok ⟨t, RAGPipeline.format_sources (d :: ds)⟩,
       [CallEvent.retrieve question, CallEvent.retrieve question,
        CallEvent.generate (RAGPipeline.chain_prompt question language (d :: ds))]) := by
  unfold RAGPipeline.answerWithTrace
  rw [hr]
  simp [hgen]

/-- Claim C2: whenever the retriever returns zero passages, `answer`
returns exactly the fixed dictionary with the "no relevant information"
sentence and an empty sources list, independent of the question and
language. -/
theorem C2_empty_retrieval_fixed_result
    (r : String → Except RunErr (List Document))
    (gen : String → Except RunErr String) (question language : String)
    (hr : r question = Except.ok []) :
    RAGPipeline.answer r gen question language =
      Except.ok ⟨"Unfortunately, I could not find any relevant information in my knowledge base.", []⟩ := by
  unfold RAGPipeline.answer RAGPipeline.answerWithTrace
  rw [hr]
  rfl

/-- Witness for C2 at a concrete request. -/
theorem C2_empty_retrieval_fixed_result_witness :
    RAGPipeline.answer (fun _ => Except.ok []) (fun _ => Except.ok "ignored")
        "Anything at all" "English" =
      Except.ok ⟨"Unfortunately, I could not find any relevant information in my knowledge base.", []⟩ :=
  C2_empty_retrieval_fixed_result (fun _ => Except.ok [])
    (fun _ => Except.ok "ignored") "Anything at all" "English" rfl

set_option maxRecDepth 100000 in
/-- Claim C3, the code behavior at a concrete request: the chain fills
the `question` and `language` slots of the prompt with the Python
`str()` of the whole input dict (both `question=RunnablePassthrough()`
and `language=RunnablePassthrough()` pass the entire input through),
so the prompt the generator receives differs from the specified
`compose(question, language, context)`.  The generator here echoes its
prompt, exposing it as the answer. -/
theorem C3_prompt_passthrough_leak :
    RAGPipeline.answer
        (fun _ => Except.ok
          [⟨"CTX", [("source", PyVal.str "https://u"), ("title", PyVal.str "T")]⟩])
        (fun p => Except.ok p) "Q1" "Polish"
      = Except.ok
          ⟨RAG_PROMPT_TEMPLATE_filled (pyStrOfAskInput "Q1" "Polish") "CTX"
              (pyStrOfAskInput "Q1" "Polish"),
           [⟨PyVal.str "https://u", PyVal.str "T"⟩]⟩ ∧
    RAG_PROMPT_TEMPLATE_filled (pyStrOfAskInput "Q1" "Polish") "CTX"
        (pyStrOfAskInput "Q1" "Polish") ≠
      spec_compose "Q1" "Polish" "CTX" := by
  refine ⟨rfl, ?_⟩
  decide

/-- Claim C4: for a non-empty retrieval result, the generator is called
once, on the prompt whose context slot is exactly the page contents of
the retrieved passages joined in retrieval order by the separator of
two newlines, three hyphens, two newlines; and the sources of any
returned result are collected from those same passages. -/
theorem C4_context_join_and_same_passages
    (r : String → Except RunErr (List Document))
    (gen : String → Except RunErr String) (question language : String)
    (docs : List Document)
    (hr : r question = Except.ok docs) (hne : docs ≠ []) :
    RAGPipeline.callTrace r gen question language =
      [CallEvent.retrieve question, CallEvent.retrieve question,
       CallEvent.generate (RAG_PROMPT_TEMPLATE_filled
         (pyStrOfAskInput question language)
         (String.intercalate "\n\n---\n\n" (docs.map (fun doc => doc.page_content)))
         (pyStrOfAskInput question language))] ∧
    ∀ a, RAGPipeline.answer r gen question language = Except.ok a →
      a.sources = RAGPipeline.format_sources docs := by
  constructor
  · cases docs with
    | nil => exact absurd rfl hne
    | cons d ds =>
      unfold RAGPipeline.callTrace
      cases hgen : gen (RAGPipeline.chain_prompt question language (d :: ds)) with
      | error e =>
        rw [answerWithTrace_gen_error r gen question language d ds e hr hgen]
        simp [RAGPipeline.chain_prompt, RAGPipeline.format_context]
      | ok t =>
        rw [answerWithTrace_gen_ok r gen question language d ds t hr hgen]
        simp [RAGPipeline.chain_prompt, RAGPipeline.format_context]
  · intro a ha
    exact answer_ok_sources r gen question language docs a hr ha

/-- Witness for C4 at a concrete request with two retrieved passages. -/
theorem C4_context_join_and_same_passages_witness :
    RAGPipeline.callTrace
        (fun _ => Except.ok [⟨"first text", [("source", PyVal.str "u1")]⟩,
                             ⟨"second text", [("source", PyVal.str "u2")]⟩])
        (fun _ => Except.ok "ans") "Q2" "English" =
      [CallEvent.retrieve "Q2", CallEvent.retrieve "Q2",
       CallEvent.generate (RAG_PROMPT_TEMPLATE_filled
         (pyStrOfAskInput "Q2" "English")
         (String.intercalate "\n\n---\n\n"
           (([⟨"first text", [("source", PyVal.str "u1")]⟩,
              ⟨"second text", [("source", PyVal.str "u2")]⟩] : List Document).map
              (fun doc => doc.page_content)))
         (pyStrOfAskInput "Q2" "English"))] ∧
    ∀ a, RAGPipeline.answer
        (fun _ => Except.ok [⟨"first text", [("source", PyVal.str "u1")]⟩,
                             ⟨"second text", [("source", PyVal.str "u2")]⟩])
        (fun _ => Except.ok "ans") "Q2" "English" = Except.ok a →
      a.sources = RAGPipeline.format_sources
        [⟨"first text", [("source", PyVal.str "u1")]⟩,
         ⟨"second text", [("source", PyVal.str "u2")]⟩] :=
  C4_context_join_and_same_passages
    (fun _ => Except.ok [⟨"first text", [("source", PyVal.str "u1")]⟩,
                         ⟨"second text", [("source", PyVal.str "u2")]⟩])
    (fun _ => Except.ok "ans") "Q2" "English"
    [⟨"first text", [("source", PyVal.str "u1")]⟩,
     ⟨"second text", [("source", PyVal.str "u2")]⟩]
    rfl (List.cons_ne_nil _ _)

/-- Claim C5, the code behavior at concrete inputs.  First input: a
well-formed record followed by a valid-JSON line that is not a record
(the bare number 42); calling `.get` on the decoded non-dict raises an
`AttributeError`, which is none of the caught exception types
(`JSONDecodeError`, `TypeError`, `KeyError`), so the whole load aborts
instead of skipping the line.  Second input: a well-formed record
followed by a malformed (non-JSON) line; the decode error is caught and
exactly one prepared record is returned. -/
theorem C5_structure_fault_aborts_load :
    load_and_prepare_documents
        (some [Except.ok (PyJson.obj
            [("title", PyVal.str "T"), ("h1", PyVal.str "H"),
             ("text", PyVal.str "B"), ("url", PyVal.str "https://u"),
             ("content_hash", PyVal.str "c")]),
          Except.ok (PyJson.val (PyVal.num 42))]) 0 none
      = Except.error PyError.attributeError ∧
    load_and_prepare_documents
        (some [Except.ok (PyJson.obj
            [("title", PyVal.str "T"), ("h1", PyVal.str "H"),
             ("text", PyVal.str "B"), ("url", PyVal.str "https://u"),
             ("content_hash", PyVal.str "c")]),
          Except.error ()]) 0 none
      = Except.ok [⟨"Page Title: T\nH1 Header: H\n\nB",
          [("source", PyVal.str "https://u"), ("title", PyVal.str "T"),
           ("content_hash", PyVal.str "c")]⟩] :=
  ⟨rfl, rfl⟩

/-- Claim C6: a well-formed record (its fields, when present, string
valued) is prepared into a passage whose enriched text is the fixed
format with missing title or h1 rendered as "N/A" and missing body text
as the empty string, and whose metadata carries url-or-empty,
title-or-"No Title", and hash-or-empty. -/
theorem C6_prepared_record_shape (f : List (String × PyVal))
    (t h1 x u c : Option String)
    (ht : dictGet f "title" = t.map PyVal.str)
    (hh : dictGet f "h1" = h1.map PyVal.str)
    (hx : dictGet f "text" = x.map PyVal.str)
    (hu : dictGet f "url" = u.map PyVal.str)
    (hc : dictGet f "content_hash" = c.map PyVal.str) :
    prepare_line (PyJson.obj f) = Except.ok
      ⟨"Page Title: " ++ t.getD "N/A" ++ "\n" ++
         "H1 Header: " ++ h1.getD "N/A" ++ "\n\n" ++ x.getD "",
       [("source", PyVal.str (u.getD "")),
        ("title", PyVal.str (t.getD "No Title")),
        ("content_hash", PyVal.str (c.getD ""))]⟩ := by
  cases t <;> cases h1 <;> cases x <;> cases u <;> cases c <;>
    simp [prepare_line, ht, hh, hx, hu, hc, PyVal.pyStr] <;> rfl

/-- Witness for C6 on the record of the specification example: only a
body text, no title, no h1, no url, no hash. -/
theorem C6_prepared_record_shape_witness :
    prepare_line (PyJson.obj [("text", PyVal.str "body")]) = Except.ok
      ⟨"Page Title: N/A\nH1 Header: N/A\n\nbody",
       [("source", PyVal.str ""), ("title", PyVal.str "No Title"),
        ("content_hash", PyVal.str "")]⟩ :=
  C6_prepared_record_shape [("text", PyVal.str "body")]
    none none (some "body") none none rfl rfl rfl rfl rfl

/-- Claim C7: loading from a path that does not exist returns the empty
list of prepared records, for every line range, raising nothing. -/
theorem C7_missing_file_empty_result (start : Nat) (stop : Option Nat) :
    load_and_prepare_documents none start stop = Except.ok [] := rfl

/-- Claim C8: an exception raised by the retriever, or by the generator
while the chain runs, is not caught inside `answer` (it propagates as
the same error), and the `/ask` handler converts it into an HTTP 500
whose detail string carries the error message. -/
theorem C8_exception_propagation
    (r : String → Except RunErr (List Document))
    (gen : String → Except RunErr String) (question language : String)
    (e : RunErr)
    (hfail : r question = Except.error e ∨
      ∃ d ds, r question = Except.ok (d :: ds) ∧
        gen (RAGPipeline.chain_prompt question language (d :: ds)) = Except.error e) :
    RAGPipeline.answer r gen question language = Except.error e ∧
    ask r gen question language =
      HttpResult.httpError 500
        ("An internal error occurred while processing the request: " ++ e) := by
  have hans : RAGPipeline.answer r gen question language = Except.error e := by
    rcases hfail with hr | ⟨d, ds, hr, hgen⟩
    · unfold RAGPipeline.answer RAGPipeline.answerWithTrace
      rw [hr]
    · unfold RAGPipeline.answer
      rw [answerWithTrace_gen_error r gen question language d ds e hr hgen]
  refine ⟨hans, ?_⟩
  unfold ask
  rw [hans]

/-- Witness for C8 at a concrete request whose retriever raises. -/
theorem C8_exception_propagation_witness :
    RAGPipeline.answer (fun _ => Except.error "connection refused")
        (fun _ => Except.ok "unused") "Q" "Polish" = Except.error "connection refused" ∧
    ask (fun _ => Except.error "connection refused")
        (fun _ => Except.ok "unused") "Q" "Polish" =
      HttpResult.httpError 500
        ("An internal error occurred while processing the request: " ++ "connection refused") :=
  C8_exception_propagation (fun _ => Except.error "connection refused")
    (fun _ => Except.ok "unused") "Q" "Polish" "connection refused" (Or.inl rfl)

/-- Claim C9: with the retriever a fixed deterministic function, two
successful invocations of `answer` on the same question and language
yield identical `sources`, whatever each generator invocation returns
(the free-text answer is not constrained). -/
theorem C9_sources_deterministic
    (r : String → Except RunErr (List Document))
    (gen gen' : String → Except RunErr String) (question language : String)
    (a a' : AnswerResult)
    (h1 : RAGPipeline.answer r gen question language = Except.ok a)
    (h2 : RAGPipeline.answer r gen' question language = Except.ok a') :
    a.sources = a'.sources := by
  cases hr : r question with
  | error e =>
    unfold RAGPipeline.answer RAGPipeline.answerWithTrace at h1
    rw [hr] at h1
    exact absurd h1 (by simp)
  | ok docs =>
    rw [answer_ok_sources r gen question language docs a hr h1,
      answer_ok_sources r gen' question language docs a' hr h2]

/-- Witness for C9: two invocations whose generators return different
free text still agree on the sources. -/
theorem C9_sources_deterministic_witness :
    (AnswerResult.mk "first answer"
        [⟨PyVal.str "https://u", PyVal.str "T"⟩]).sources =
    (AnswerResult.mk "second answer"
        [⟨PyVal.str "https://u", PyVal.str "T"⟩]).sources :=
  C9_sources_deterministic
    (fun _ => Except.ok
      [⟨"CTX", [("source", PyVal.str "https://u"), ("title", PyVal.str "T")]⟩])
    (fun _ => Except.ok "first answer") (fun _ => Except.ok "second answer")
    "Q" "Polish"
    (AnswerResult.mk "first answer" [⟨PyVal.str "https://u", PyVal.str "T"⟩])
    (AnswerResult.mk "second answer" [⟨PyVal.str "https://u", PyVal.str "T"⟩])
    rfl rfl

/-- Claim C10: when retrieval returns zero passages, the only external
call of the whole request is the single retrieval; in particular the
generator is never invoked. -/
theorem C10_no_generation_on_empty_retrieval
    (r : String → Except RunErr (List Document))
    (gen : String → Except RunErr String) (question language : String)
    (hr : r question = Except.ok []) :
    RAGPipeline.callTrace r gen question language = [CallEvent.retrieve question] ∧
    ∀ p, CallEvent.generate p ∉ RAGPipeline.callTrace r gen question language := by
  have h : RAGPipeline.callTrace r gen question language = [CallEvent.retrieve question] := by
    unfold RAGPipeline.callTrace RAGPipeline.answerWithTrace
    rw [hr]
    rfl
  refine ⟨h, ?_⟩
  intro p
  rw [h]
  simp

/-- Witness for C10 at a concrete request. -/
theorem C10_no_generation_on_empty_retrieval_witness :
    RAGPipeline.callTrace (fun _ => Except.ok [])
        (fun _ => Except.ok "ans") "Q" "Polish" = [CallEvent.retrieve "Q"] ∧
    ∀ p, CallEvent.generate p ∉ RAGPipeline.callTrace (fun _ => Except.ok [])
        (fun _ => Except.ok "ans") "Q" "Polish" :=
  C10_no_generation_on_empty_retrieval (fun _ => Except.ok [])
    (fun _ => Except.ok "ans") "Q" "Polish" rfl
